import Mathlib

/-!
Verification development for the TSETMC smart-money service (`app.py` and
`modules/`).  Python numbers are embedded as `ℚ` (floats) and `ℤ` (ints);
fallible operations return `Option`/`Except`; the concurrent scheduler is
embedded by explicit completion-time bookkeeping.
-/

namespace TSETMC

/-- Python value fed to `safe_float` / `safe_int`: `None`, a string, or an
already-numeric value. -/
inductive Val where
  | none
  | str (s : String)
  | num (q : ℚ)
deriving DecidableEq

/-- Numeric value of a list of decimal digit characters. -/
def digitsToNat (l : List Char) : ℕ :=
  l.foldl (fun n c => 10 * n + (c.toNat - 48)) 0

/-- Whitespace characters removed by Python `str.strip()` (ASCII set). -/
def isPySpace (c : Char) : Bool :=
  c = ' ' ∨ c = '\t' ∨ c = '\n' ∨ c = '\r' ∨ c = '\x0b' ∨ c = '\x0c'

/-- Python `str.strip()`: drop whitespace from both ends. -/
def pyStrip (cs : List Char) : List Char :=
  ((cs.dropWhile isPySpace).reverse.dropWhile isPySpace).reverse

/-- Python `str.split(sep)` for a one-character separator: the list of
chunks between occurrences of `sep` (empty chunks kept). -/
def pySplit (sep : Char) : List Char → List (List Char)
  | [] => [[]]
  | c :: rest =>
      let tail := pySplit sep rest
      if c = sep then [] :: tail
      else
        match tail with
        | [] => [[c]]
        | chunk :: more => (c :: chunk) :: more

/-- Character-level scan behind the model of Python `float(str)`: the sign,
the integer digits, the fraction digits and the fraction length. -/
def pyScanFloat (s : String) : Option (Bool × ℕ × ℕ × ℕ) :=
  let cs := pyStrip s.toList
  let signAndRest : Bool × List Char :=
    match cs with
    | '-' :: rest => (true, rest)
    | '+' :: rest => (false, rest)
    | _ => (false, cs)
  let neg := signAndRest.1
  let body := signAndRest.2
  let intPart := body.takeWhile Char.isDigit
  let rest := body.dropWhile Char.isDigit
  match rest with
  | [] =>
      if intPart = [] then Option.none
      else some (neg, digitsToNat intPart, 0, 0)
  | '.' :: frac =>
      if frac.all Char.isDigit ∧ (intPart ≠ [] ∨ frac ≠ []) then
        some (neg, digitsToNat intPart, digitsToNat frac, frac.length)
      else Option.none
  | _ => Option.none

/-- Modelled from the Python builtin `float(str)` conversion (the source calls
it inside `safe_float`/`safe_int`): optional surrounding whitespace, optional
sign, decimal digits with an optional fractional part.  Exponent, `inf`/`nan`
and underscore forms are outside the model; on any other malformed input the
builtin raises `ValueError`, embedded as `Option.none`. -/
def pyParseFloat (s : String) : Option ℚ :=
  (pyScanFloat s).map fun r =>
    (if r.1 then (-1 : ℚ) else 1) * ((r.2.1 : ℚ) + (r.2.2.1 : ℚ) / 10 ^ r.2.2.2)

/-- Python `float(value)` on a `Val`: numbers convert to themselves, strings
are parsed, `float(None)` raises `TypeError` (embedded as `none`). -/
def pyFloatConv : Val → Option ℚ
  | Val.none => Option.none
  | Val.str s => pyParseFloat s
  | Val.num q => some q

/-- Python `int(q)` on a float: truncation toward zero (floor for
non-negative values, ceiling for negative ones). -/
def truncToInt (q : ℚ) : ℤ :=
  if 0 ≤ q then ⌊q⌋ else ⌈q⌉

/-- Embeds `safe_float` (app.py:153-160): returns `dflt` for `''` and `None`,
otherwise `float(value)`, with any conversion failure mapped to `dflt`. -/
def safe_float (value : Val) (dflt : ℚ) : ℚ :=
  if value = Val.str "" ∨ value = Val.none then dflt
  else
    match pyFloatConv value with
    | some q => q
    | Option.none => dflt

/-- Embeds `safe_int` (app.py:162-169): returns `dflt` for `''` and `None`,
otherwise `int(float(value))`, with any conversion failure mapped to `dflt`. -/
def safe_int (value : Val) (dflt : ℤ) : ℤ :=
  if value = Val.str "" ∨ value = Val.none then dflt
  else
    match pyFloatConv value with
    | some q => truncToInt q
    | Option.none => dflt

/-- Structured record produced by `parse_stock_data` (app.py:171-226). -/
structure ParsedData where
  symbol : String
  last_price : ℚ
  close_price : ℚ
  first_price : ℚ
  yesterday_price : ℚ
  volume : ℤ
  value : ℚ
  min_price : ℚ
  max_price : ℚ
  count : ℤ
  avg_trade_size : ℚ
  price_change_percent : ℚ
deriving DecidableEq, Repr

/-- Comma fields of a response body after the strip of the body and of each
part (app.py:175,181). -/
def parseParts (data : String) : List String :=
  (pySplit ',' (pyStrip data.toList)).map (fun p => String.mk (pyStrip p))

/-- Derived average trade size (app.py:206-210): `value / count` only when
both are positive, else 0. -/
def avgTradeSize (count : ℤ) (value : ℚ) : ℚ :=
  if count > 0 ∧ value > 0 then value / (count : ℚ) else 0

/-- Derived price change percentage (app.py:212-219): 0 unless yesterday's
price is positive. -/
def priceChangePercent (last_price yesterday_price : ℚ) : ℚ :=
  if yesterday_price > 0 then
    ((last_price - yesterday_price) / yesterday_price) * 100
  else 0

/-- Embeds `parse_stock_data` (app.py:171-226): strip, reject short input,
split on commas, convert fields with `safe_float`/`safe_int`, reject a
non-positive last price, then derive `avg_trade_size` (0 unless both `count`
and `value` are positive) and `price_change_percent` (0 unless
`yesterday_price` is positive). -/
def parse_stock_data (data : String) (symbol : String) : Option ParsedData :=
  let d := pyStrip data.toList
  if d = [] ∨ d.length < 10 then Option.none
  else
    let parts := parseParts data
    if parts.length < 11 then Option.none
    else
      let fld := fun i => parts.getD i ""
      let last_price := safe_float (Val.str (fld 2)) 0
      let close_price := safe_float (Val.str (fld 3)) 0
      let first_price := safe_float (Val.str (fld 4)) 0
      let yesterday_price := safe_float (Val.str (fld 5)) 0
      let volume := safe_int (Val.str (fld 6)) 0
      let value := safe_float (Val.str (fld 7)) 0
      let min_price := safe_float (Val.str (fld 8)) 0
      let max_price := safe_float (Val.str (fld 9)) 0
      let count := safe_int (Val.str (fld 10)) 0
      if last_price ≤ 0 then Option.none
      else
        some
          { symbol := symbol
            last_price := last_price
            close_price := close_price
            first_price := first_price
            yesterday_price := yesterday_price
            volume := volume
            value := value
            min_price := min_price
            max_price := max_price
            count := count
            avg_trade_size := avgTradeSize count value
            price_change_percent := priceChangePercent last_price yesterday_price }

/-- Python `round(x)` ties-to-even, used by the builtin `round(q, nd)`. -/
def roundHalfEven (x : ℚ) : ℤ :=
  if x - ⌊x⌋ = 1 / 2 then (if 2 ∣ ⌊x⌋ then ⌊x⌋ else ⌊x⌋ + 1) else round x

/-- Modelled from the Python builtin `round(q, nd)` on exact decimal values
(binary floating-point artifacts are outside the model). -/
def pyRound (q : ℚ) (nd : ℕ) : ℚ :=
  (roundHalfEven (q * 10 ^ nd) : ℚ) / 10 ^ nd

theorem roundHalfEven_intCast (n : ℤ) : roundHalfEven (n : ℚ) = n := by
  unfold roundHalfEven
  rw [if_neg]
  · exact round_intCast n
  · simp

theorem pyRound_intCast (n : ℤ) (nd : ℕ) : pyRound (n : ℚ) nd = n := by
  unfold pyRound
  have h : (n : ℚ) * 10 ^ nd = ((n * 10 ^ nd : ℤ) : ℚ) := by push_cast; ring
  rw [h, roundHalfEven_intCast]
  have hpos : ((10 : ℚ) ^ nd) ≠ 0 := by positivity
  push_cast
  field_simp

/-- Numeric metrics block of the analysis result (app.py:427-435); the
source formats `volume`, `trade_count` and the two prices as strings --
the underlying numbers are carried here. -/
structure Metrics where
  volume : ℤ
  value_billions : ℚ
  price_change_percent : ℚ
  avg_trade_size_millions : ℚ
  trade_count : ℤ
  last_price : ℚ
  yesterday_price : ℚ
deriving DecidableEq

/-- Result dict of `analyze_smart_money_enhanced` and of the failure entries
built in `get_smart_money`.  The free-text `analysis` field (a string of
joined analysis points) is not modelled; `risk_factors` and `metrics` are
absent (`none`) in the dicts that do not carry those keys. -/
structure AnalysisOut where
  symbol : String
  smart_money_score : ℚ
  recommendation : String
  risk_level : String
  risk_factors : Option (List String)
  metrics : Option Metrics
deriving DecidableEq

/-- Volume contribution and risk factors (app.py:285-302, weight 25). -/
def volumeCat (volume : ℤ) : ℤ × List String :=
  if volume > 50000000 then (25, [])
  else if volume > 10000000 then (20, [])
  else if volume > 1000000 then (15, [])
  else if volume > 100000 then (8, ["حجم پایین"])
  else (2, ["حجم بسیار پایین"])

/-- Trade-value contribution and risk factors (app.py:304-321, weight 25);
the argument is `value_billions = value / 1e9`. -/
def valueCat (value_billions : ℚ) : ℤ × List String :=
  if value_billions > 100 then (25, [])
  else if value_billions > 50 then (20, [])
  else if value_billions > 10 then (15, [])
  else if value_billions > 1 then (10, [])
  else (3, ["ارزش پایین"])

/-- Average-trade-size contribution and risk factors (app.py:323-340,
weight 20); the argument is `avg_millions = avg_trade_size / 1e6`. -/
def avgCat (avg_millions : ℚ) : ℤ × List String :=
  if avg_millions > 100 then (20, [])
  else if avg_millions > 50 then (15, [])
  else if avg_millions > 10 then (10, [])
  else if avg_millions > 1 then (5, [])
  else (1, ["معاملات خرد"])

/-- Price-change contribution and risk factors (app.py:342-362, weight 15). -/
def changeCat (price_change_percent : ℚ) : ℤ × List String :=
  if price_change_percent > 7 then (15, [])
  else if price_change_percent > 3 then (12, [])
  else if price_change_percent > 0 then (8, [])
  else if price_change_percent > -3 then (5, [])
  else if price_change_percent > -7 then (2, ["کاهش قیمت"])
  else (0, ["سقوط قیمت"])

/-- Trade-count contribution and risk factors (app.py:364-380, weight 10). -/
def countCat (count : ℤ) : ℤ × List String :=
  if count > 10000 then (10, [])
  else if count > 5000 then (8, [])
  else if count > 1000 then (6, [])
  else if count > 100 then (3, ["تعداد معاملات کم"])
  else (1, ["تعداد معاملات بسیار کم"])

/-- Liquidity contribution and risk factors (app.py:382-394, weight 5);
skipped entirely unless `volume` and `last_price` are both positive. -/
def liqCat (volume : ℤ) (last_price value : ℚ) : ℤ × List String :=
  if volume > 0 ∧ last_price > 0 then
    let liquidity_ratio := if value > 0 then ((volume : ℚ) * last_price) / value else 0
    if liquidity_ratio > 8 / 10 then (5, [])
    else if liquidity_ratio > 5 / 10 then (3, [])
    else (1, ["نقدینگی کم"])
  else (0, [])

/-- Risk level from the collected risk factors (app.py:396-402). -/
def riskLevel (risk_factors : List String) : String :=
  if risk_factors.length = 0 then "پایین"
  else if risk_factors.length ≤ 2 then "متوسط"
  else "بالا"

/-- Recommendation tier from score and risk level (app.py:404-418). -/
def recommendationOf (score : ℤ) (risk_level : String) : String :=
  if score ≥ 85 ∧ risk_level = "پایین" then "🎯 خرید قوی - فرصت عالی"
  else if score ≥ 75 then "✅ خرید - نشانه‌های قوی پول هوشمند"
  else if score ≥ 60 then "📈 خرید تدریجی - وضعیت مطلوب"
  else if score ≥ 45 then "⚖️ نگهداری - وضعیت متعادل"
  else if score ≥ 30 then "⚠️ احتیاط - ضعف نسبی"
  else if score ≥ 20 then "📉 فروش تدریجی - عدم حضور پول هوشمند"
  else "🔻 فروش - وضعیت نامطلوب"

/-- Raw integer score before rounding: the sum of the six category
contributions (app.py:281-394). -/
def rawScore (sd : ParsedData) : ℤ :=
  (volumeCat sd.volume).1 + (valueCat (sd.value / 1000000000)).1 +
    (avgCat (sd.avg_trade_size / 1000000)).1 +
    (changeCat sd.price_change_percent).1 + (countCat sd.count).1 +
    (liqCat sd.volume sd.last_price sd.value).1

/-- Risk factors collected across the six categories, in evaluation order. -/
def rawRisks (sd : ParsedData) : List String :=
  (volumeCat sd.volume).2 ++ (valueCat (sd.value / 1000000000)).2 ++
    (avgCat (sd.avg_trade_size / 1000000)).2 ++
    (changeCat sd.price_change_percent).2 ++ (countCat sd.count).2 ++
    (liqCat sd.volume sd.last_price sd.value).2

/-- Embeds `analyze_smart_money_enhanced` (app.py:259-446).  A falsy
`stock_data` argument is `none`; the `try` body cannot raise on the modelled
record type, so the handler at app.py:438-446 is unreachable. -/
def analyze_smart_money_enhanced (stock_data : Option ParsedData) : AnalysisOut :=
  match stock_data with
  | Option.none =>
      { symbol := "N/A", smart_money_score := 0, recommendation := "نامشخص",
        risk_level := "بالا", risk_factors := Option.none, metrics := Option.none }
  | some sd =>
      let score := rawScore sd
      let risks := rawRisks sd
      let risk_level := riskLevel risks
      { symbol := sd.symbol
        smart_money_score := pyRound (score : ℚ) 1
        recommendation := recommendationOf score risk_level
        risk_level := risk_level
        risk_factors := some risks
        metrics := some
          { volume := sd.volume
            value_billions := pyRound (sd.value / 1000000000) 2
            price_change_percent := pyRound sd.price_change_percent 2
            avg_trade_size_millions := pyRound (sd.avg_trade_size / 1000000) 2
            trade_count := sd.count
            last_price := sd.last_price
            yesterday_price := sd.yesterday_price } }

/-- Embeds `get_cached_data` (app.py:132-146).  The cache dict maps keys to
`(data, timestamp)` pairs; `now` is the value of `time.time()`.  Returns the
looked-up value together with the cache after the lazy deletion of an
expired entry.  The hit/miss counters are not modelled. -/
def get_cached_data {α : Type} (cache : String → Option (α × ℚ)) (now : ℚ)
    (cache_duration : ℚ) (key : String) :
    Option α × (String → Option (α × ℚ)) :=
  match cache key with
  | some (data, timestamp) =>
      if now - timestamp < cache_duration then (some data, cache)
      else (Option.none, fun k => if k = key then Option.none else cache k)
  | Option.none => (Option.none, cache)

/-- Embeds `set_cached_data` (app.py:148-151): store `(data, now)` under
`key`. -/
def set_cached_data {α : Type} (cache : String → Option (α × ℚ)) (now : ℚ)
    (key : String) (data : α) : String → Option (α × ℚ) :=
  fun k => if k = key then some (data, now) else cache k

/-- Outcome of one `session.get` call inside `get_stock_data`: either an
exception (network error / timeout) or a response with a status code and a
body. -/
inductive Attempt where
  | netError
  | response (status : ℕ) (body : String)

/-- Observable run of `get_stock_data`: the returned value, the number of
attempts actually made, and the list of back-off sleep durations in order. -/
structure FetchRun where
  result : Option ParsedData
  attempts : ℕ
  sleeps : List ℚ
deriving DecidableEq

/-- Attempt loop of `get_stock_data` (app.py:238-256) over the remaining
attempt indices.  `raise_for_status` raises for any status ≥ 400; any
exception is caught and, when the attempt is not the last, followed by a
`time.sleep(0.5 * (attempt + 1))`; a non-raising response whose body is too
short or fails to parse falls through to the next attempt without sleeping. -/
def attemptLoop (fetch : ℕ → Attempt) (symbol : String) (max_retries : ℕ) :
    List ℕ → FetchRun
  | [] => ⟨Option.none, 0, []⟩
  | attempt :: rest =>
      let keepTrying := fun (slept : Bool) =>
        let tail := attemptLoop fetch symbol max_retries rest
        if slept ∧ attempt < max_retries - 1 then
          ⟨tail.result, tail.attempts + 1, (1 / 2 : ℚ) * (attempt + 1) :: tail.sleeps⟩
        else ⟨tail.result, tail.attempts + 1, tail.sleeps⟩
      match fetch attempt with
      | Attempt.netError => keepTrying true
      | Attempt.response status body =>
          if 400 ≤ status then keepTrying true
          else if body.length > 10 then
            match parse_stock_data body symbol with
            | some d => ⟨some d, 1, []⟩
            | Option.none => keepTrying false
          else keepTrying false

/-- Embeds `get_stock_data` (app.py:229-256): a truthy cached record is
returned with no fetch attempt; otherwise the attempt loop runs for
`max_retries` attempts.  The write of a fresh result into the cache is a
side effect not carried in `FetchRun`. -/
def get_stock_data (cached : Option ParsedData) (fetch : ℕ → Attempt)
    (symbol : String) (max_retries : ℕ) : FetchRun :=
  match cached with
  | some d => ⟨some d, 0, []⟩
  | Option.none => attemptLoop fetch symbol max_retries (List.range max_retries)

/-- Result of one worker future in `get_smart_money`: `get_stock_data`
returned a record or `None`, or `future.result()` re-raised an exception. -/
inductive FetchRes where
  | ok (data : Option ParsedData)
  | exn
deriving DecidableEq

/-- One dispatched future: its symbol, its wall-clock completion time, and
its result. -/
structure FetchTask where
  symbol : String
  done_at : ℚ
  res : FetchRes
deriving DecidableEq

/-- Failure entry appended when `get_stock_data` returned `None`
(app.py:481-487). -/
def failureEntry (symbol : String) : AnalysisOut :=
  { symbol := symbol, smart_money_score := 0,
    recommendation := "❌ نامشخص - عدم دسترسی به داده", risk_level := "بالا",
    risk_factors := Option.none, metrics := Option.none }

/-- Failure entry appended when `future.result()` raised (app.py:491-497). -/
def exnEntry (symbol : String) : AnalysisOut :=
  { symbol := symbol, smart_money_score := 0,
    recommendation := "❌ نامشخص - خطا در پردازش", risk_level := "بالا",
    risk_factors := Option.none, metrics := Option.none }

/-- Body of the `as_completed` loop (app.py:474-498): the appended entry and
whether it counted as a successful analysis. -/
def processFuture (t : FetchTask) : AnalysisOut × Bool :=
  match t.res with
  | FetchRes.ok (some d) => (analyze_smart_money_enhanced (some d), true)
  | FetchRes.ok Option.none => (failureEntry t.symbol, false)
  | FetchRes.exn => (exnEntry t.symbol, false)

/-- Descending-score order used by `results.sort(key=..., reverse=True)`
(app.py:501). -/
def scoreDescRel (a b : AnalysisOut) : Prop :=
  b.smart_money_score ≤ a.smart_money_score

instance : DecidableRel scoreDescRel :=
  fun a b => inferInstanceAs (Decidable (b.smart_money_score ≤ a.smart_money_score))

instance : IsTotal AnalysisOut scoreDescRel :=
  ⟨fun a b => le_total b.smart_money_score a.smart_money_score⟩

instance : IsTrans AnalysisOut scoreDescRel :=
  ⟨fun _ _ _ hab hbc => le_trans hbc hab⟩

/-- Embeds `results.sort(key=lambda x: x.get(score), reverse=True)`
(app.py:501).  Python's sort is stable; a stable insertion sort under
`scoreDescRel` (insert before the first element of not-larger score)
produces the same list. -/
def sortResults (l : List AnalysisOut) : List AnalysisOut :=
  List.insertionSort scoreDescRel l

/-- Completion order in which `as_completed` yields the futures. -/
def doneAtRel (a b : FetchTask) : Prop := a.done_at ≤ b.done_at

instance : DecidableRel doneAtRel :=
  fun a b => inferInstanceAs (Decidable (a.done_at ≤ b.done_at))

/-- Report returned by `get_smart_money`: the success dict (app.py:511-538,
carrying the sorted results and the success/failure counts; summary rates,
categorised slices and timing metadata are derived from these and not
modelled separately), or the error dict (app.py:542-546) built when an
exception — in particular the `TimeoutError` that `as_completed` raises when
the 45s budget elapses with futures still pending — reaches the outer
handler, discarding the locally accumulated results. -/
inductive SMReport where
  | ok (results : List AnalysisOut) (successful failed : ℕ)
  | error
deriving DecidableEq

/-- Embeds `get_smart_money` (app.py:456-546) for a given set of dispatched
futures and the overall `as_completed` timeout.  Futures completing within
the budget are processed in completion order; if any future is still pending
when the budget elapses, the raised `TimeoutError` is caught by the outer
handler and the error dict is returned instead of the accumulated results. -/
def get_smart_money (tasks : List FetchTask) (timeout : ℚ) : SMReport :=
  if tasks.any (fun t => decide (timeout < t.done_at)) then SMReport.error
  else
    let ordered := List.insertionSort doneAtRel tasks
    let processed := ordered.map processFuture
    let results := sortResults (processed.map Prod.fst)
    SMReport.ok results (processed.countP (fun p => p.2)) (processed.countP (fun p => !p.2))

/-- Per-day real (retail) trade aggregates returned by `get_legal_data`
(modules/smart_money.py:55-87). -/
structure LegalData where
  buy_i_volume : ℚ
  buy_count_i : ℚ
  sell_i_volume : ℚ
  sell_count_i : ℚ
deriving DecidableEq

/-- Instrument snapshot returned by `get_symbol_data`
(modules/smart_money.py:18-53). -/
structure SymbolData where
  tvol : ℚ
  is5 : ℚ
  pl : ℚ
  pc : ℚ
  plp : ℚ
deriving DecidableEq

/-- Data block of the success dict of `check_smart_money_condition`
(modules/smart_money.py:127-135). -/
structure CheckData where
  tvol : ℚ
  is5 : ℚ
  pl : ℚ
  pc : ℚ
  plp : ℚ
  avg_buy : ℚ
  avg_sell : ℚ
deriving DecidableEq

/-- Conditions block of the success dict of `check_smart_money_condition`
(modules/smart_money.py:136-141). -/
structure Conditions where
  volume_condition : Bool
  legal_condition : Bool
  price_condition : Bool
  change_condition : Bool
deriving DecidableEq

/-- Return dict of `check_smart_money_condition`: always carries `symbol`
and `has_smart_money`; the failure dicts carry a `reason` instead of the
data/conditions blocks. -/
structure CheckResult where
  symbol : String
  has_smart_money : Bool
  reason : Option String
  details : Option (CheckData × Conditions)
deriving DecidableEq

/-- Python float division, which raises `ZeroDivisionError` on a zero
denominator. -/
def pyDiv (a b : ℚ) : Except String ℚ :=
  if b = 0 then Except.error "float division by zero" else Except.ok (a / b)

/-- Embeds `check_smart_money_condition` (modules/smart_money.py:89-150),
parameterised by the results of the two underlying fetchers.  A missing
fetch result returns the no-data dict; a `ZeroDivisionError` from either
per-trade average lands in the `except` handler, which returns the error
dict; otherwise the four conditions are conjoined. -/
def check_smart_money_condition (symbol : String)
    (symbol_data : Option SymbolData) (legal_data : Option LegalData) :
    CheckResult :=
  match symbol_data, legal_data with
  | some sd, some ld =>
      match pyDiv ld.buy_i_volume ld.buy_count_i,
          pyDiv ld.sell_i_volume ld.sell_count_i with
      | Except.ok avg_buy, Except.ok avg_sell =>
          let condition1 := decide (sd.tvol > 5 / 4 * sd.is5)
          let condition2 := decide (avg_buy ≥ avg_sell)
          let condition3 := decide (sd.pl ≥ sd.pc)
          let condition4 := decide (sd.plp > 0)
          { symbol := symbol
            has_smart_money := condition1 && condition2 && condition3 && condition4
            reason := Option.none
            details := some
              (⟨sd.tvol, sd.is5, sd.pl, sd.pc, sd.plp, avg_buy, avg_sell⟩,
               ⟨condition1, condition2, condition3, condition4⟩) }
      | _, _ =>
          { symbol := symbol, has_smart_money := false,
            reason := some "خطا", details := Option.none }
  | _, _ =>
      { symbol := symbol, has_smart_money := false,
        reason := some "داده‌ها دریافت نشد", details := Option.none }

/-- One element of the symbol list fetched by `get_all_symbols_data`
(modules/daily_data.py): a JSON object with the three fields the filters
read (each possibly absent, defaulting to 0 via `.get`), or a non-dict
value, which the filter loop skips. -/
inductive SymRec where
  | obj (volume : Option ℚ) (last_price : Option ℚ) (change_percent : Option ℚ)
  | other
deriving DecidableEq

/-- Filter dict of `get_filtered_data`: each key may be absent.  A falsy
dict argument (`None` or `{}`) is embedded as `Option.none` at the call. -/
structure Filters where
  min_volume : Option ℚ
  min_price : Option ℚ
  positive_change : Option Bool
deriving DecidableEq

/-- Filter conjunction of `get_filtered_data` (modules/daily_data.py:145-163)
for one dict record. -/
def matchesFilters (f : Filters) (volume last_price change_percent : Option ℚ) :
    Bool :=
  let m1 : Bool :=
    match f.min_volume with
    | some mv => decide (¬ volume.getD 0 < mv)
    | Option.none => true
  let m2 : Bool :=
    match f.min_price with
    | some mp => decide (¬ last_price.getD 0 < mp)
    | Option.none => true
  let m3 : Bool :=
    if f.positive_change.getD false then decide (¬ change_percent.getD 0 ≤ 0)
    else true
  m1 && m2 && m3

/-- Success report of `get_filtered_data` (modules/daily_data.py:168-177);
message, filter echo and timestamp strings are not modelled. -/
structure FilterReport where
  status : String
  data : List SymRec
  total_filtered : ℕ
  total_original : ℕ
deriving DecidableEq

/-- Embeds `get_filtered_data` (modules/daily_data.py:126-186),
parameterised by the successfully fetched symbol list.  With a falsy filter
dict every record is kept; otherwise non-dict records are skipped and dict
records must satisfy every supplied filter. -/
def get_filtered_data (symbols_data : List SymRec) (filters : Option Filters) :
    FilterReport :=
  let filtered :=
    match filters with
    | Option.none => symbols_data
    | some f =>
        symbols_data.filter fun r =>
          match r with
          | SymRec.obj v p c => matchesFilters f v p c
          | SymRec.other => false
  { status := "success", data := filtered,
    total_filtered := filtered.length, total_original := symbols_data.length }

/-! Claim theorems -/

theorem val_str_ne_none (s : String) : Val.str s ≠ Val.none :=
  fun h => Val.noConfusion h

/-- C3: for every raw response, a parsed record with trade count 0 has
`avg_trade_size` 0 (defined without division), and `avg_trade_size` is the
quotient `value / count` exactly in the guarded case of a positive count
(and positive value); parsing is a total function, so no exception can
escape. -/
theorem parse_zero_count_avg_zero (data symbol : String) (r : ParsedData)
    (h : parse_stock_data data symbol = some r) :
    (r.count = 0 → r.avg_trade_size = 0) ∧
    (0 < r.count → 0 < r.value → r.avg_trade_size = r.value / (r.count : ℚ)) := by
  have hconn : r.avg_trade_size = avgTradeSize r.count r.value := by
    simp only [parse_stock_data] at h
    split at h
    · exact absurd h (by simp)
    · split at h
      · exact absurd h (by simp)
      · split at h
        · exact absurd h (by simp)
        · rw [Option.some.injEq] at h
          subst h
          rfl
  rw [hconn]
  constructor
  · intro h0
    rw [h0]
    unfold avgTradeSize
    rw [if_neg]
    simp
  · intro hc hv
    unfold avgTradeSize
    rw [if_pos ⟨hc, hv⟩]

/-- Sample raw response used in concrete evaluations. -/
def sampleBody : String := "1,1,5,5,5,5,10,0,1,1,0"

/-- The record `sampleBody` parses to. -/
def sampleRec : ParsedData :=
  { symbol := "S", last_price := 5, close_price := 5, first_price := 5,
    yesterday_price := 5, volume := 10, value := 0, min_price := 1,
    max_price := 1, count := 0, avg_trade_size := 0, price_change_percent := 0 }

theorem parse_sampleBody : parse_stock_data sampleBody "S" = some sampleRec := by
  have hg : ¬(pyStrip sampleBody.toList = [] ∨
      (pyStrip sampleBody.toList).length < 10) := by decide
  have hp : parseParts sampleBody =
      ["1", "1", "5", "5", "5", "5", "10", "0", "1", "1", "0"] := by decide
  have hs1 : pyScanFloat "1" = some (false, 1, 0, 0) := by decide
  have hs5 : pyScanFloat "5" = some (false, 5, 0, 0) := by decide
  have hs10 : pyScanFloat "10" = some (false, 10, 0, 0) := by decide
  have hs0 : pyScanFloat "0" = some (false, 0, 0, 0) := by decide
  have hne1 : ¬("1" = "") := by decide
  have hne5 : ¬("5" = "") := by decide
  have hne10 : ¬("10" = "") := by decide
  have hne0 : ¬("0" = "") := by decide
  have hf1 : safe_float (Val.str "1") 0 = 1 := by
    norm_num [safe_float, pyFloatConv, pyParseFloat, hs1, hne1, val_str_ne_none]
  have hf5 : safe_float (Val.str "5") 0 = 5 := by
    norm_num [safe_float, pyFloatConv, pyParseFloat, hs5, hne5, val_str_ne_none]
  have hf0 : safe_float (Val.str "0") 0 = 0 := by
    norm_num [safe_float, pyFloatConv, pyParseFloat, hs0, hne0, val_str_ne_none]
  have hi10 : safe_int (Val.str "10") 0 = 10 := by
    norm_num [safe_int, pyFloatConv, pyParseFloat, hs10, hne10, truncToInt, val_str_ne_none]
  have hi0 : safe_int (Val.str "0") 0 = 0 := by
    norm_num [safe_int, pyFloatConv, pyParseFloat, hs0, hne0, truncToInt, val_str_ne_none]
  show parse_stock_data sampleBody "S" = some
    { symbol := "S", last_price := 5, close_price := 5, first_price := 5,
      yesterday_price := 5, volume := 10, value := 0, min_price := 1,
      max_price := 1, count := 0, avg_trade_size := 0,
      price_change_percent := 0 }
  simp only [parse_stock_data, hp]
  rw [if_neg hg]
  norm_num [hf1, hf5, hf0, hi10, hi0, avgTradeSize, priceChangePercent]

/-- C3 witness: the concrete response `1,1,5,5,5,5,10,0,1,1,0` parses with
`count = 0` and `avg_trade_size = 0`. -/
theorem parse_zero_count_avg_zero_witness :
    ∃ r, parse_stock_data sampleBody "S" = some r ∧
      r.count = 0 ∧ r.avg_trade_size = 0 :=
  ⟨sampleRec, parse_sampleBody, rfl,
    (parse_zero_count_avg_zero _ _ _ parse_sampleBody).1 rfl⟩

/-- C5: a cache get misses when the key is absent; a get that hits an entry
aged at least `cache_duration` misses and lazily deletes the entry; a get
strictly inside the window returns the stored value; and a get after a put
within the window returns exactly the value that was put. -/
theorem get_cached_data_spec {α : Type} (cache : String → Option (α × ℚ))
    (now dur : ℚ) (key : String) :
    (cache key = Option.none →
      (get_cached_data cache now dur key).1 = Option.none) ∧
    (∀ d ts, cache key = some (d, ts) → dur ≤ now - ts →
      (get_cached_data cache now dur key).1 = Option.none ∧
      (get_cached_data cache now dur key).2 key = Option.none) ∧
    (∀ d ts, cache key = some (d, ts) → now - ts < dur →
      (get_cached_data cache now dur key).1 = some d) ∧
    (∀ (d : α) t0 now2, now2 - t0 < dur →
      (get_cached_data (set_cached_data cache t0 key d) now2 dur key).1 = some d) := by
  refine ⟨?_, ?_, ?_, ?_⟩
  · intro h
    simp [get_cached_data, h]
  · intro d ts h hexp
    simp only [get_cached_data, h]
    rw [if_neg (not_lt.mpr hexp)]
    exact ⟨rfl, by simp⟩
  · intro d ts h hin
    simp only [get_cached_data, h]
    rw [if_pos hin]
  · intro d t0 now2 hin
    simp [get_cached_data, set_cached_data, hin]

/-- C5 witness: concrete miss on an empty cache, hit after a put inside the
window, and expiry with lazy deletion at the window boundary. -/
theorem get_cached_data_spec_witness :
    (get_cached_data (fun _ => (Option.none : Option (ℕ × ℚ))) 10 60 "k").1 =
      Option.none ∧
    (get_cached_data
      (set_cached_data (fun _ => (Option.none : Option (ℕ × ℚ))) 0 "k" 42)
      30 60 "k").1 = some 42 ∧
    (get_cached_data
      (fun k => if k = "k" then some ((7 : ℕ), (0 : ℚ)) else Option.none)
      60 60 "k").1 = Option.none ∧
    (get_cached_data
      (fun k => if k = "k" then some ((7 : ℕ), (0 : ℚ)) else Option.none)
      60 60 "k").2 "k" = Option.none := by
  refine ⟨(get_cached_data_spec _ 10 60 "k").1 rfl,
    (get_cached_data_spec _ 30 60 "k").2.2.2 42 0 30 (by norm_num),
    ((get_cached_data_spec _ 60 60 "k").2.1 7 0 (by simp) (by norm_num)).1,
    ((get_cached_data_spec _ 60 60 "k").2.1 7 0 (by simp) (by norm_num)).2⟩

/-- C8 counterexample: on the float-string `-1.5` (which the model parser
reads as `-3/2`), `safe_int` returns `-1`, not the floor `-2`; so the
integer variant does not floor for every float string. -/
theorem safe_int_floor_counterexample :
    pyParseFloat "-1.5" = some (-(3 / 2)) ∧
    safe_int (Val.str "-1.5") 0 = -1 ∧
    ⌊(-(3 / 2) : ℚ)⌋ = -2 ∧
    safe_int (Val.str "-1.5") 0 ≠ ⌊(-(3 / 2) : ℚ)⌋ := by
  have hs : pyScanFloat "-1.5" = some (true, 1, 5, 1) := by decide
  have h1 : pyParseFloat "-1.5" = some (-(3 / 2)) := by
    norm_num [pyParseFloat, hs]
  have h2 : safe_int (Val.str "-1.5") 0 = -1 := by
    have hconv : pyFloatConv (Val.str "-1.5") = some (-(3 / 2)) := h1
    norm_num [safe_int, hconv, truncToInt, Int.ceil_eq_iff, val_str_ne_none,
      show ¬("-1.5" = "") from by decide]
  have h3 : ⌊(-(3 / 2) : ℚ)⌋ = -2 := by
    rw [Int.floor_eq_iff]
    norm_num
  exact ⟨h1, h2, h3, by rw [h2, h3]; decide⟩

/-- C8 (amended): the numeric normalizers return the given default on any
conversion failure and never raise; `safe_int` truncates toward zero via
float-then-int conversion, which is the floor only for non-negative values
and the ceiling for negative ones. -/
theorem safe_num_spec (v : Val) (dq : ℚ) (d : ℤ) :
    (pyFloatConv v = Option.none → safe_float v dq = dq ∧ safe_int v d = d) ∧
    (∀ q, pyFloatConv v = some q →
      safe_float v dq = q ∧ safe_int v d = truncToInt q ∧
      (0 ≤ q → safe_int v d = ⌊q⌋) ∧ (q < 0 → safe_int v d = ⌈q⌉)) := by
  constructor
  · intro h
    unfold safe_float safe_int
    split_ifs with hv
    · exact ⟨rfl, rfl⟩
    · rw [h]
      exact ⟨rfl, rfl⟩
  · intro q h
    have hv : ¬(v = Val.str "" ∨ v = Val.none) := by
      rintro (rfl | rfl)
      · rw [show pyFloatConv (Val.str "") = Option.none from by
          simp [pyFloatConv, pyParseFloat, show pyScanFloat "" = Option.none from by decide]] at h
        exact Option.noConfusion h
      · exact Option.noConfusion h
    unfold safe_float safe_int
    rw [if_neg hv, if_neg hv, h]
    refine ⟨rfl, rfl, ?_, ?_⟩
    · intro hq
      show (if 0 ≤ q then ⌊q⌋ else (⌈q⌉ : ℤ)) = ⌊q⌋
      rw [if_pos hq]
    · intro hq
      show (if 0 ≤ q then ⌊q⌋ else (⌈q⌉ : ℤ)) = ⌈q⌉
      rw [if_neg (not_le.mpr hq)]

/-- C8 witness: `123.9` converts and `safe_int` gives its floor 123, while
the unparsable `abc` yields the supplied defaults. -/
theorem safe_num_spec_witness :
    safe_int (Val.str "123.9") 0 = ⌊(1239 / 10 : ℚ)⌋ ∧
    safe_float (Val.str "123.9") 0 = 1239 / 10 ∧
    safe_float (Val.str "abc") 5 = 5 ∧ safe_int (Val.str "abc") 7 = 7 := by
  have hgood : pyFloatConv (Val.str "123.9") = some (1239 / 10) := by
    norm_num [pyFloatConv, pyParseFloat,
      show pyScanFloat "123.9" = some (false, 123, 9, 1) from by decide]
  have hbad : pyFloatConv (Val.str "abc") = Option.none := by
    simp [pyFloatConv, pyParseFloat, show pyScanFloat "abc" = Option.none from by decide]
  exact ⟨((safe_num_spec (Val.str "123.9") 0 0).2 (1239 / 10) hgood).2.2.1
      (by norm_num),
    ((safe_num_spec (Val.str "123.9") 0 0).2 (1239 / 10) hgood).1,
    ((safe_num_spec (Val.str "abc") 5 7).1 hbad).1,
    ((safe_num_spec (Val.str "abc") 5 7).1 hbad).2⟩

/-- C9: `check_smart_money_condition` is total (never raises) and every
return dict carries the requested symbol; the flag is `false` whenever
either fetcher returned no data, and also when a zero real-buyer or
real-seller trade count makes the per-trade average division raise
internally. -/
theorem check_smart_money_safe (symbol : String) (sd : Option SymbolData)
    (ld : Option LegalData) :
    (check_smart_money_condition symbol sd ld).symbol = symbol ∧
    ((sd = Option.none ∨ ld = Option.none) →
      (check_smart_money_condition symbol sd ld).has_smart_money = false) ∧
    (∀ s l, sd = some s → ld = some l →
      (l.buy_count_i = 0 ∨ l.sell_count_i = 0) →
      (check_smart_money_condition symbol sd ld).has_smart_money = false) := by
  refine ⟨?_, ?_, ?_⟩
  · cases sd with
    | none => cases ld <;> rfl
    | some s =>
      cases ld with
      | none => rfl
      | some l =>
        by_cases hb : l.buy_count_i = 0 <;> by_cases hs : l.sell_count_i = 0 <;>
          simp [check_smart_money_condition, pyDiv, hb, hs]
  · rintro (rfl | rfl)
    · cases ld <;> rfl
    · cases sd <;> rfl
  · rintro s l rfl rfl (hb | hs)
    · simp [check_smart_money_condition, pyDiv, hb]
    · by_cases hb : l.buy_count_i = 0 <;>
        simp [check_smart_money_condition, pyDiv, hb, hs]

/-- C9 witness: a zero real-buyer count and a missing fetch both yield a
dict with the requested symbol and a `false` flag. -/
theorem check_smart_money_safe_witness :
    (check_smart_money_condition "X" (some ⟨1, 1, 1, 1, 1⟩)
      (some ⟨1, 0, 1, 1⟩)).has_smart_money = false ∧
    (check_smart_money_condition "Y" Option.none Option.none).symbol = "Y" ∧
    (check_smart_money_condition "Y" Option.none
      (some ⟨1, 1, 1, 1⟩)).has_smart_money = false :=
  ⟨(check_smart_money_safe "X" _ _).2.2 _ _ rfl rfl (Or.inl rfl),
   (check_smart_money_safe "Y" Option.none Option.none).1,
   (check_smart_money_safe "Y" Option.none _).2.1 (Or.inl rfl)⟩

/-- C10: `get_filtered_data` on a fetched list always reports success with
`total_filtered` equal to the length of the returned data and at most
`total_original`; a falsy filter dict keeps every record, and with filters
every returned record is a dict satisfying each supplied filter
(`volume ≥ min_volume`, `last_price ≥ min_price`, and a positive
`change_percent` when `positive_change` is set). -/
theorem get_filtered_data_spec (sd : List SymRec) (fs : Option Filters) :
    (get_filtered_data sd fs).status = "success" ∧
    (get_filtered_data sd fs).total_filtered =
      (get_filtered_data sd fs).data.length ∧
    (get_filtered_data sd fs).total_filtered ≤
      (get_filtered_data sd fs).total_original ∧
    (fs = Option.none → (get_filtered_data sd fs).data = sd) ∧
    (∀ f, fs = some f → ∀ r ∈ (get_filtered_data sd fs).data,
      ∃ v p c, r = SymRec.obj v p c ∧
        (∀ mv, f.min_volume = some mv → mv ≤ v.getD 0) ∧
        (∀ mp, f.min_price = some mp → mp ≤ p.getD 0) ∧
        (f.positive_change = some true → 0 < c.getD 0)) := by
  cases fs with
  | none =>
    refine ⟨rfl, rfl, le_refl _, fun _ => rfl, ?_⟩
    intro f hf
    exact absurd hf (by simp)
  | some f =>
    refine ⟨rfl, rfl, List.length_filter_le _ _, ?_, ?_⟩
    · intro h
      exact absurd h (by simp)
    · intro f2 hf2 r hr
      rw [Option.some.injEq] at hf2
      subst hf2
      simp only [get_filtered_data] at hr
      rw [List.mem_filter] at hr
      obtain ⟨hmem, hpred⟩ := hr
      cases r with
      | other => exact absurd hpred (by simp)
      | obj v p c =>
        refine ⟨v, p, c, rfl, ?_, ?_, ?_⟩
        · intro mv hmv
          simp only [matchesFilters, hmv, Bool.and_eq_true, decide_eq_true_eq] at hpred
          exact not_lt.mp hpred.1.1
        · intro mp hmp
          simp only [matchesFilters, hmp, Bool.and_eq_true, decide_eq_true_eq] at hpred
          exact not_lt.mp hpred.1.2
        · intro hpc
          simp only [matchesFilters, hpc, Option.getD_some, if_true,
            Bool.and_eq_true, decide_eq_true_eq] at hpred
          exact not_le.mp hpred.2

/-- C10 witness: a concrete list with a non-dict entry and a low-volume
entry, filtered by minimum volume 5 and positive change. -/
theorem get_filtered_data_spec_witness :
    (get_filtered_data
      [SymRec.obj (some 10) (some 5) (some 1), SymRec.other,
       SymRec.obj (some 1) Option.none Option.none]
      (some ⟨some 5, Option.none, some true⟩)).data =
      [SymRec.obj (some 10) (some 5) (some 1)] ∧
    (∃ v p c, SymRec.obj (some 10) (some 5) (some 1) = SymRec.obj v p c ∧
      (∀ mv, (some (5 : ℚ)) = some mv → mv ≤ v.getD 0) ∧
      (∀ mp, (Option.none : Option ℚ) = some mp → mp ≤ p.getD 0) ∧
      ((some true : Option Bool) = some true → 0 < c.getD 0)) := by
  have hdata : (get_filtered_data
      [SymRec.obj (some 10) (some 5) (some 1), SymRec.other,
       SymRec.obj (some 1) Option.none Option.none]
      (some ⟨some 5, Option.none, some true⟩)).data =
      [SymRec.obj (some 10) (some 5) (some 1)] := by
    norm_num [get_filtered_data, matchesFilters, List.filter]
  have hmem : SymRec.obj (some 10) (some 5) (some 1) ∈ (get_filtered_data
      [SymRec.obj (some 10) (some 5) (some 1), SymRec.other,
       SymRec.obj (some 1) Option.none Option.none]
      (some ⟨some 5, Option.none, some true⟩)).data := by
    rw [hdata]
    exact List.mem_singleton_self _
  exact ⟨hdata, (get_filtered_data_spec _ _).2.2.2.2 _ rfl _ hmem⟩

theorem volumeCat_bounds (v : ℤ) : 2 ≤ (volumeCat v).1 ∧ (volumeCat v).1 ≤ 25 := by
  unfold volumeCat
  split_ifs <;> norm_num

theorem valueCat_bounds (v : ℚ) : 3 ≤ (valueCat v).1 ∧ (valueCat v).1 ≤ 25 := by
  unfold valueCat
  split_ifs <;> norm_num

theorem avgCat_bounds (v : ℚ) : 1 ≤ (avgCat v).1 ∧ (avgCat v).1 ≤ 20 := by
  unfold avgCat
  split_ifs <;> norm_num

theorem changeCat_bounds (v : ℚ) : 0 ≤ (changeCat v).1 ∧ (changeCat v).1 ≤ 15 := by
  unfold changeCat
  split_ifs <;> norm_num

theorem countCat_bounds (v : ℤ) : 1 ≤ (countCat v).1 ∧ (countCat v).1 ≤ 10 := by
  unfold countCat
  split_ifs <;> norm_num

theorem liqCat_bounds (v : ℤ) (p q : ℚ) :
    0 ≤ (liqCat v p q).1 ∧ (liqCat v p q).1 ≤ 5 := by
  unfold liqCat
  split_ifs <;> try norm_num
  all_goals split_ifs <;> norm_num

/-- C2: the final `smart_money_score` always lies in `[0, 100]`: the six
category contributions are each non-negative and their maxima sum to
exactly 100, so the unclamped sum never needs clamping and is never
negative (there are no negative contributions in the code). -/
theorem analyze_score_in_range (sd : Option ParsedData) :
    0 ≤ (analyze_smart_money_enhanced sd).smart_money_score ∧
    (analyze_smart_money_enhanced sd).smart_money_score ≤ 100 := by
  cases sd with
  | none => norm_num [analyze_smart_money_enhanced]
  | some d =>
    have hb : 7 ≤ rawScore d ∧ rawScore d ≤ 100 := by
      unfold rawScore
      have h1 := volumeCat_bounds d.volume
      have h2 := valueCat_bounds (d.value / 1000000000)
      have h3 := avgCat_bounds (d.avg_trade_size / 1000000)
      have h4 := changeCat_bounds d.price_change_percent
      have h5 := countCat_bounds d.count
      have h6 := liqCat_bounds d.volume d.last_price d.value
      constructor <;> linarith [h1.1, h1.2, h2.1, h2.2, h3.1, h3.2, h4.1, h4.2,
        h5.1, h5.2, h6.1, h6.2]
    simp only [analyze_smart_money_enhanced]
    rw [pyRound_intCast]
    constructor
    · exact_mod_cast le_trans (by norm_num : (0 : ℤ) ≤ 7) hb.1
    · exact_mod_cast hb.2

/-- Input record of the C7 scenario, mapped onto the code's record type
(`trade_count` is the code's `count`; the spec's `baseline_volume` has no
counterpart and is never read by the code), with the derived fields as the
code computes them: `avg_trade_size = value / count = 3e7` and
`price_change_percent = 0` (no yesterday price supplied). -/
def scenarioRecord : ParsedData :=
  { symbol := "AAA", last_price := 1000, close_price := 0, first_price := 0,
    yesterday_price := 0, volume := 5000000, value := 6000000000,
    min_price := 0, max_price := 0, count := 200, avg_trade_size := 30000000,
    price_change_percent := 0 }

/-- C7 counterexample: on the scenario record the score engine does not
produce 90 (the code has no relative-volume, value-threshold, price-premium
or time-of-day signals, and no `has_signal` field at all). -/
theorem scenario_score_not_90 :
    (analyze_smart_money_enhanced (some scenarioRecord)).smart_money_score ≠ 90 := by
  have hraw : rawScore scenarioRecord = 48 := by
    norm_num [rawScore, scenarioRecord, volumeCat, valueCat, avgCat,
      changeCat, countCat, liqCat]
  have h : (analyze_smart_money_enhanced (some scenarioRecord)).smart_money_score
      = 48 := by
    simp only [analyze_smart_money_enhanced, hraw]
    rw [pyRound_intCast]
    norm_num
  rw [h]
  norm_num

/-- C7 (amended): on the scenario record the code's rubric totals 48 —
volume 5e6 gives +15, a 6-billion trade value gives +10, a 30M average trade
size gives +10, a zero price change gives +5, 200 trades give +3, and the
5/6 liquidity ratio gives +5 — and the recommendation is the hold tier. -/
theorem scenario_score_48 :
    (analyze_smart_money_enhanced (some scenarioRecord)).smart_money_score = 48 ∧
    (analyze_smart_money_enhanced (some scenarioRecord)).recommendation =
      "⚖️ نگهداری - وضعیت متعادل" := by
  have hraw : rawScore scenarioRecord = 48 := by
    norm_num [rawScore, scenarioRecord, volumeCat, valueCat, avgCat,
      changeCat, countCat, liqCat]
  have hrisk : rawRisks scenarioRecord = ["تعداد معاملات کم"] := by
    norm_num [rawRisks, scenarioRecord, volumeCat, valueCat, avgCat,
      changeCat, countCat, liqCat]
  constructor
  · simp only [analyze_smart_money_enhanced, hraw]
    rw [pyRound_intCast]
    norm_num
  · simp only [analyze_smart_money_enhanced, hraw, hrisk, riskLevel,
      recommendationOf]
    norm_num

/-- First of the two equal-score results used against the ranking claim. -/
def tieA : AnalysisOut :=
  { symbol := "A", smart_money_score := 50, recommendation := "",
    risk_level := "", risk_factors := Option.none,
    metrics := some ⟨0, 1, 0, 0, 0, 0, 0⟩ }

/-- Second equal-score result, with the larger traded value. -/
def tieB : AnalysisOut :=
  { symbol := "B", smart_money_score := 50, recommendation := "",
    risk_level := "", risk_factors := Option.none,
    metrics := some ⟨0, 2, 0, 0, 0, 0, 0⟩ }

/-- C6 counterexample: two successes with equal score stay in insertion
order under the code's sort even though the second carries the larger
value — the sort key is the score alone, so ties are not ordered by value
descending (nor by symbol). -/
theorem sort_ties_not_value_ordered :
    sortResults [tieA, tieB] = [tieA, tieB] ∧
    (tieA.metrics.map Metrics.value_billions).getD 0 <
      (tieB.metrics.map Metrics.value_billions).getD 0 ∧
    sortResults [tieA, tieB] ≠ [tieB, tieA] := by
  have h : sortResults [tieA, tieB] = [tieA, tieB] := by
    simp [sortResults, List.insertionSort, List.orderedInsert, scoreDescRel,
      tieA, tieB]
  refine ⟨h, by norm_num [tieA, tieB], ?_⟩
  rw [h]
  intro heq
  injection heq with h1 h2
  have hsym : tieA.symbol = tieB.symbol := congrArg AnalysisOut.symbol h1
  rw [show tieA.symbol = "A" from rfl, show tieB.symbol = "B" from rfl] at hsym
  exact absurd hsym (by decide)

/-- C6 (amended): the final sort orders the results by score descending
only; it permutes the input, and two equal-score entries that appear in a
given order keep that relative (completion) order — ties are not reordered
by value or symbol. -/
theorem sortResults_sorted_stable (l : List AnalysisOut) :
    List.Sorted scoreDescRel (sortResults l) ∧ (sortResults l).Perm l ∧
    (∀ a b, a.smart_money_score = b.smart_money_score →
      List.Sublist [a, b] l → List.Sublist [a, b] (sortResults l)) := by
  refine ⟨List.sorted_insertionSort _ l, List.perm_insertionSort _ l, ?_⟩
  intro a b hab hsub
  exact List.pair_sublist_insertionSort hab.ge hsub

/-- C6 witness for the amended claim at a concrete tie. -/
theorem sortResults_sorted_stable_witness :
    List.Sorted scoreDescRel (sortResults [tieA, tieB]) ∧
    (sortResults [tieA, tieB]).Perm [tieA, tieB] ∧
    List.Sublist [tieA, tieB] (sortResults [tieA, tieB]) := by
  obtain ⟨h1, h2, h3⟩ := sortResults_sorted_stable [tieA, tieB]
  exact ⟨h1, h2, h3 tieA tieB rfl (List.Sublist.refl _)⟩

/-- Fetch pattern whose first attempt gets a 404 (outside the retryable
set) and whose later attempts get a 200 with a parsable body. -/
def c4fetch : ℕ → Attempt := fun n =>
  if n = 0 then Attempt.response 404 "" else Attempt.response 200 sampleBody

theorem attemptLoop_attempts_le (f : ℕ → Attempt) (s : String) (m : ℕ) :
    ∀ l : List ℕ, (attemptLoop f s m l).attempts ≤ l.length := by
  intro l
  induction l with
  | nil => exact le_refl 0
  | cons a rest ih =>
    simp only [attemptLoop, List.length_cons]
    cases f a with
    | netError =>
      dsimp only
      split_ifs <;> simpa using Nat.succ_le_succ ih
    | response status body =>
      dsimp only
      by_cases h4 : 400 ≤ status
      · rw [if_pos h4]
        split_ifs <;> simpa using Nat.succ_le_succ ih
      · rw [if_neg h4]
        by_cases hlen : body.length > 10
        · rw [if_pos hlen]
          cases hp : parse_stock_data body s with
          | some d => exact Nat.succ_le_succ (Nat.zero_le _)
          | none => split_ifs <;> simpa using Nat.succ_le_succ ih
        · rw [if_neg hlen]
          split_ifs <;> simpa using Nat.succ_le_succ ih

/-- C4 counterexample: the first attempt returns a 404 — a status outside
the retryable set — yet the loop sleeps 0.5s and retries, and the second
attempt succeeds: a non-retryable status does not fail immediately. -/
theorem non_retryable_status_still_retried :
    (get_stock_data Option.none c4fetch "S" 3).attempts = 2 ∧
    (get_stock_data Option.none c4fetch "S" 3).result = some sampleRec ∧
    (get_stock_data Option.none c4fetch "S" 3).sleeps = [1 / 2] := by
  have hlen : (10 : ℕ) < sampleBody.length := by decide
  have hrange : List.range 3 = [0, 1, 2] := by decide
  have h : get_stock_data Option.none c4fetch "S" 3 =
      ⟨some sampleRec, 2, [1 / 2]⟩ := by
    simp only [get_stock_data, hrange, attemptLoop, c4fetch]
    norm_num [parse_sampleBody, hlen]
  rw [h]
  exact ⟨rfl, rfl, rfl⟩

/-- C4 (amended): `get_stock_data` makes at most `max_retries` attempts;
every exception — network error, timeout, or any HTTP error status raised
by `raise_for_status`, not only the retryable set of the transport-level
urllib3 `Retry` — triggers a further attempt after a
`0.5 * attempt_number` back-off sleep (no sleep after the final attempt),
and a run of pure network errors uses the full linear back-off schedule. -/
theorem get_stock_data_retry_amended (f : ℕ → Attempt) (s : String) (m : ℕ) :
    (get_stock_data Option.none f s m).attempts ≤ m ∧
    (∀ status body, 400 ≤ status → f 0 = Attempt.response status body →
      1 < m →
      (get_stock_data Option.none f s m).attempts =
        (attemptLoop f s m ((List.range m).drop 1)).attempts + 1 ∧
      (get_stock_data Option.none f s m).sleeps =
        (1 / 2 : ℚ) :: (attemptLoop f s m ((List.range m).drop 1)).sleeps) ∧
    get_stock_data Option.none (fun _ => Attempt.netError) s 3 =
      ⟨Option.none, 3, [1 / 2, 1]⟩ := by
  refine ⟨?_, ?_, ?_⟩
  · have h := attemptLoop_attempts_le f s m (List.range m)
    rw [List.length_range] at h
    exact h
  · intro status body h4 hf0 hm
    obtain ⟨k, rfl⟩ : ∃ k, m = k + 1 := ⟨m - 1, by omega⟩
    simp only [get_stock_data]
    rw [show List.range (k + 1) = 0 :: List.map Nat.succ (List.range k) from
      List.range_succ_eq_map k]
    simp only [List.drop_succ_cons, List.drop_zero]
    simp only [attemptLoop, hf0]
    rw [if_pos h4, if_pos (show True ∧ 0 < k + 1 - 1 from ⟨trivial, by omega⟩)]
    norm_num
  · have hrange : List.range 3 = [0, 1, 2] := by decide
    simp only [get_stock_data, hrange, attemptLoop]
    norm_num

/-- C4 witness for the amended claim: the 404-then-200 pattern at the
default three retries makes a second attempt after a 0.5s sleep. -/
theorem get_stock_data_retry_amended_witness :
    (get_stock_data Option.none c4fetch "S" 3).attempts =
      (attemptLoop c4fetch "S" 3 ((List.range 3).drop 1)).attempts + 1 ∧
    (get_stock_data Option.none c4fetch "S" 3).sleeps =
      (1 / 2 : ℚ) :: (attemptLoop c4fetch "S" 3 ((List.range 3).drop 1)).sleeps :=
  (get_stock_data_retry_amended c4fetch "S" 3).2.1 404 "" (by norm_num) rfl
    (by norm_num)

theorem countP_bool_not {α : Type} (p : α → Bool) (l : List α) :
    l.countP p + l.countP (fun a => !p a) = l.length := by
  induction l with
  | nil => rfl
  | cons a t ih =>
    simp only [List.countP_cons, List.length_cons]
    cases h : p a <;> simp [h] <;> omega

/-- C1 counterexample: with the fetch for `A` completed at t=1 (carrying a
record) and the fetch for `B` still pending at the 45s budget, the call
returns the error dict — the completed result for `A` is discarded and no
per-symbol timeout failure is recorded — while the same completed fetch
alone yields a success report. -/
theorem partial_timeout_discards_results :
    get_smart_money
      [⟨"A", 1, FetchRes.ok (some sampleRec)⟩,
       ⟨"B", 100, FetchRes.ok Option.none⟩] 45 = SMReport.error ∧
    get_smart_money [⟨"A", 1, FetchRes.ok (some sampleRec)⟩] 45 ≠
      SMReport.error := by
  constructor
  · unfold get_smart_money
    rw [if_pos]
    simp only [List.any_cons, List.any_nil, Bool.or_eq_true, decide_eq_true_eq]
    norm_num
  · unfold get_smart_money
    rw [if_neg]
    · intro h
      exact SMReport.noConfusion h
    · simp only [List.any_cons, List.any_nil, Bool.or_eq_true, decide_eq_true_eq]
      norm_num

/-- C1 (amended): when every dispatched fetch completes within the
`as_completed` budget, `get_smart_money` returns the success report with
one entry per symbol and success/failure counts summing to the symbol
count; when any fetch is still outstanding at the deadline, the raised
`TimeoutError` is caught by the outer handler and the error dict is
returned — completed results are discarded wholesale, and the call itself
never raises. -/
theorem get_smart_money_timeout_spec (tasks : List FetchTask) (timeout : ℚ) :
    ((∃ t ∈ tasks, timeout < t.done_at) →
      get_smart_money tasks timeout = SMReport.error) ∧
    ((∀ t ∈ tasks, t.done_at ≤ timeout) → ∃ results s f,
      get_smart_money tasks timeout = SMReport.ok results s f ∧
      results.length = tasks.length ∧ s + f = tasks.length) := by
  constructor
  · rintro ⟨t, ht, hlt⟩
    unfold get_smart_money
    rw [if_pos]
    rw [List.any_eq_true]
    exact ⟨t, ht, by simpa using hlt⟩
  · intro hall
    unfold get_smart_money
    rw [if_neg]
    · refine ⟨_, _, _, rfl, ?_, ?_⟩
      · simp [sortResults, List.length_insertionSort]
      · have hc := countP_bool_not (fun p : AnalysisOut × Bool => p.2)
          (List.map processFuture (List.insertionSort doneAtRel tasks))
        rw [List.length_map, List.length_insertionSort] at hc
        exact hc
    · rw [List.any_eq_true]
      rintro ⟨t, ht, hdec⟩
      rw [decide_eq_true_eq] at hdec
      exact absurd hdec (not_lt.mpr (hall t ht))

/-- C1 witness: a pending fetch alone gives the error dict; a completed
fetch alone gives the success report with one result. -/
theorem get_smart_money_timeout_spec_witness :
    get_smart_money [⟨"B", 100, FetchRes.ok Option.none⟩] 45 =
      SMReport.error ∧
    (∃ results s f,
      get_smart_money [⟨"A", 1, FetchRes.ok (some sampleRec)⟩] 45 =
        SMReport.ok results s f ∧ results.length = 1 ∧ s + f = 1) := by
  constructor
  · exact (get_smart_money_timeout_spec _ 45).1
      ⟨⟨"B", 100, FetchRes.ok Option.none⟩, by simp, by norm_num⟩
  · have h := (get_smart_money_timeout_spec
      [⟨"A", 1, FetchRes.ok (some sampleRec)⟩] 45).2 ?_
    · simpa using h
    · intro t ht
      rw [List.mem_singleton] at ht
      subst ht
      norm_num

end TSETMC
